import Mathlib

/-!
Verification of the Sami node's validation core (`sami/validation.py`) and
its synchronous job scheduler (`sami/jobs.py`), via a shallow embedding of
the Python code into Lean.

Conventions of the embedding:
* Python machine-level values flowing through the validator are a `PyVal`;
  Python `dict`s are association lists with distinct keys.
* Functions that can raise return `Except PyErr _`; an uncaught Python
  exception is `.error _`.
* External collaborators that are not part of the shown sources
  (`sami.encryption.Encryption`, `sami.structures.Structures`,
  `sami.config.Config`, `sami.utils.is_int`, the standard `ipaddress`
  library and the built-in `int()` parser) are modelled from the spec, as
  abstract oracles or as explicitly marked definitions.
-/

/-- Runtime type tags for the Python values the validator inspects.
`type` is the metaclass: the runtime type of a type object itself. -/
inductive PyType where
  | int | str | float | bool | dict | list | nonetype | type
deriving DecidableEq

/-- Shallow embedding of the Python values flowing through `validation.py`:
ints, strings, floats, booleans, dicts (association lists with distinct
keys), lists, `None`, and type objects (the schema's type markers). -/
inductive PyVal where
  | int (n : Int)
  | str (s : String)
  | float (q : Rat)
  | bool (b : Bool)
  | dict (entries : List (String × PyVal))
  | list (xs : List PyVal)
  | pynone
  | type (t : PyType)

/-- Python's `type(v)`. -/
def pyType : PyVal → PyType
  | .int _ => .int
  | .str _ => .str
  | .float _ => .float
  | .bool _ => .bool
  | .dict _ => .dict
  | .list _ => .list
  | .pynone => .nonetype
  | .type _ => .type

/-- Exceptions the embedded functions can raise. -/
inductive PyErr where
  | keyError
  | typeError
  | attributeError
deriving DecidableEq

/-- Python's `s != v` for a `str` on the left: false only when `v` is a
string equal to `s` (comparison across types is just inequality). This is
the negation, i.e. `s == v`. -/
def pyEqStr (s : String) (v : PyVal) : Bool :=
  match v with
  | .str t => s = t
  | _ => false

/-- Modelled from the spec: `sami.utils.is_int` (the `utils` module is not
among the shown sources) — "accept any value that can be losslessly
interpreted as an integer (e.g. a string of digits), not only native
integers"; digit-only strings and native ints are accepted, floats and
non-digit strings are not. -/
def is_int (v : PyVal) : Bool :=
  match v with
  | .int _ => true
  | .str s => s.length > 0 && s.data.all Char.isDigit
  | _ => false

mutual

/-- `validation.validate_fields(dictionary, struct)`: returns `.ok` of the
Python boolean result, or `.error` for an uncaught exception. -/
def validate_fields (dictionary struct : PyVal) : Except PyErr Bool :=
  match dictionary with
  | .dict dentries =>
    match struct with
    | .dict sentries =>
      if dentries.length ≠ sentries.length then .ok false
      else checkFields dentries sentries
    | _ => .ok false
  | _ => .ok false
termination_by sizeOf struct

/-- The `for field_name, field_value in struct.items()` loop of
`validate_fields`, with Python's early `return False` and its exception
behaviour made explicit. -/
def checkFields (dentries : List (String × PyVal)) :
    List (String × PyVal) → Except PyErr Bool
  | [] => .ok true
  | (field_name, field_value) :: rest =>
    match field_value with
    | .type t =>
      -- Python `else` branch: the schema value is a type object.  The whole
      -- branch is wrapped in `try: ... except KeyError: return False`.
      if pyType (PyVal.type t) == PyType.int then
        -- Source text `type(field_value) == int`: it compares the
        -- metaclass `type` with `int`, not the marker itself with `int`.
        match dentries.lookup field_name with
        | none => .ok false
        | some dv => if ¬ is_int dv then .ok false else checkFields dentries rest
      else
        match dentries.lookup field_name with
        | none => .ok false
        | some dv =>
          if pyType dv ≠ t then .ok false else checkFields dentries rest
    | fv =>
      -- Python branch `type(field_value) is not type`; the dictionary
      -- accesses here are outside any try/except, so a missing key raises.
      match dentries.lookup field_name with
      | none => .error .keyError
      | some dv =>
        if pyType dv ≠ pyType fv then .ok false
        else
          -- Source text: `validate_fields(struct[field_name], field_value)`;
          -- `struct[field_name]` *is* `field_value`, so the recursion
          -- validates the nested schema against itself, not the data.
          match validate_fields fv fv with
          | .error e => .error e
          | .ok b => if ¬ b then .ok false else checkFields dentries rest
termination_by s => sizeOf s

end

mutual

/-- The schema-matching relation exactly as the claim states it (the spec
side of the refinement, not the source): same field set, each field of the
declared runtime type — with integer markers accepting any `is_int` value —
and nested mappings recursively matching their nested schema. -/
def matchesSchema (data struct : PyVal) : Bool :=
  match data with
  | .dict dentries =>
    match struct with
    | .dict sentries =>
      dentries.length = sentries.length && matchesFields dentries sentries
    | _ => false
  | _ => false
termination_by sizeOf struct

/-- Field-by-field side of `matchesSchema`. -/
def matchesFields (dentries : List (String × PyVal)) :
    List (String × PyVal) → Bool
  | [] => true
  | (fname, fval) :: rest =>
    (match dentries.lookup fname with
     | none => false
     | some dv =>
       match fval with
       | .type PyType.int => is_int dv
       | .type t => pyType dv == t
       | .dict s => matchesSchema dv (.dict s)
       | _ => false) && matchesFields dentries rest
termination_by s => sizeOf s

end

/-- Python `d[k]` on the embedded values. -/
def dictGet (v : PyVal) (k : String) : Except PyErr PyVal :=
  match v with
  | .dict entries =>
    match entries.lookup k with
    | some x => .ok x
    | none => .error .keyError
  | _ => .error .typeError

/-- Modelled from the spec: `Structures.aes_key_structure` (the
`structures` module is not among the shown sources) — the AES key envelope
`{value, hash, sig}`, all string-typed wire fields. -/
def aes_key_structure : PyVal :=
  .dict [("value", .type .str), ("hash", .type .str), ("sig", .type .str)]

/-- Modelled from the spec: `Structures.node_structure` — the Node entity
`{rsa_n, rsa_e, hash, sig}` with integer key parts and string digest and
signature. -/
def node_structure : PyVal :=
  .dict [("rsa_n", .type .int), ("rsa_e", .type .int),
         ("hash", .type .str), ("sig", .type .str)]

/-- Modelled from the spec: `Structures.simple_contact_structure` — the
Contact entity `{address}`. -/
def simple_contact_structure : PyVal :=
  .dict [("address", .type .str)]

/-- Modelled from the spec: the external cryptography capability consumed
by the Trust Verifier (`sami.encryption.Encryption` is not among the shown
sources) together with the configured RSA key length
(`Config.rsa_keys_length`).  `construct_rsa_object` returns `none` where
the Python code raises `ValueError`. -/
structure Crypto (K H S : Type) where
  construct_rsa_object : PyVal → PyVal → Option K
  size_in_bits : K → Nat
  get_public_key_hash : K → H
  hash_iterable : PyVal → H
  hexdigest : H → String
  deserialize_string : PyVal → S
  is_signature_valid : K → H → S → Bool
  rsa_keys_length : Nat

/-- `validation.is_valid_node(node_data)`. -/
def is_valid_node {K H S : Type} (C : Crypto K H S) (node_data : PyVal) :
    Except PyErr Bool :=
  match validate_fields node_data node_structure with
  | .error e => .error e
  | .ok false => .ok false
  | .ok true =>
    match dictGet node_data "rsa_n" with
    | .error e => .error e
    | .ok nval =>
      match dictGet node_data "rsa_e" with
      | .error e => .error e
      | .ok eval =>
        -- `try: ... except ValueError: return False` around construction.
        match C.construct_rsa_object nval eval with
        | none => .ok false
        | some node_pubkey =>
          if C.size_in_bits node_pubkey ≠ C.rsa_keys_length then .ok false
          else
            let hash_object := C.get_public_key_hash node_pubkey
            match dictGet node_data "hash" with
            | .error e => .error e
            | .ok hv =>
              if ¬ pyEqStr (C.hexdigest hash_object) hv then .ok false
              else
                match dictGet node_data "sig" with
                | .error e => .error e
                | .ok sv =>
                  if ¬ C.is_signature_valid node_pubkey hash_object
                      (C.deserialize_string sv) then .ok false
                  else .ok true

/-- `validation.verify_received_aes_key(key, rsa_public_key)`. -/
def verify_received_aes_key {K H S : Type} (C : Crypto K H S) (pk : K)
    (key : PyVal) : Except PyErr Bool :=
  match validate_fields key aes_key_structure with
  | .error e => .error e
  | .ok false => .ok false
  | .ok true =>
    match dictGet key "value" with
    | .error e => .error e
    | .ok value =>
      match dictGet key "hash" with
      | .error e => .error e
      | .ok h_str =>
        match dictGet key "sig" with
        | .error e => .error e
        | .ok sigv =>
          let sig := C.deserialize_string sigv
          let h := C.hash_iterable value
          if ¬ pyEqStr (C.hexdigest h) h_str then .ok false
          else if ¬ C.is_signature_valid pk h sig then .ok false
          else .ok true

/-!  Network section of `validation.py`.  -/

/-- Modelled from the spec: the whitespace the built-in `int()` strips
around its argument (restricted to the ASCII whitespace characters, which
cover the claims' examples). -/
def pyWhitespace (c : Char) : Bool :=
  c = ' ' || c = '\t' || c = '\n' || c = '\r' || c = '\x0b' || c = '\x0c'

/-- Strip `pyWhitespace` from both ends. -/
def pyStrip (l : List Char) : List Char :=
  ((l.dropWhile pyWhitespace).reverse.dropWhile pyWhitespace).reverse

/-- After the first digit: digits, with single underscores allowed only
between two digits. -/
def digitsTail : List Char → Bool
  | [] => true
  | '_' :: c :: rest => c.isDigit && digitsTail rest
  | c :: rest => c.isDigit && digitsTail rest

/-- A non-empty digit group: digits with single interior underscores. -/
def digitsPart : List Char → Bool
  | [] => false
  | c :: rest => c.isDigit && digitsTail rest

/-- Decimal value of a digit group, ignoring the underscores. -/
def digitsVal (l : List Char) : Nat :=
  (l.filter (fun c => c ≠ '_')).foldl (fun a c => 10 * a + (c.toNat - 48)) 0

/-- Modelled from the spec: Python's built-in `int()` applied to a string
(ASCII subset) — surrounding whitespace is stripped, an optional single
`+`/`-` sign is allowed, and the digits may use single underscores between
two digits; anything else raises `ValueError`, i.e. returns `none`. -/
def pyIntParse (s : String) : Option Int :=
  match pyStrip s.data with
  | '+' :: rest =>
    if digitsPart rest then some (Int.ofNat (digitsVal rest)) else none
  | '-' :: rest =>
    if digitsPart rest then some (-(Int.ofNat (digitsVal rest))) else none
  | l => if digitsPart l then some (Int.ofNat (digitsVal l)) else none

/-- `validation.is_network_port_valid(port)`: `int(port)` with `ValueError`
caught, then `0 < port < 65536`. -/
def is_network_port_valid (port : String) : Bool :=
  match pyIntParse port with
  | none => false
  | some p => decide (0 < p) && decide (p < 65536)

/-- `[a-z0-9]` under `re.IGNORECASE` (ASCII): a letter or a digit. -/
def isAlnumA (c : Char) : Bool := c.isAlpha || c.isDigit

/-- The source's inner character class `[a-z-0-9-]` (which denotes the set
{a-z, '-', 0-9}), under `re.IGNORECASE`. -/
def isLabelMid (c : Char) : Bool := isAlnumA c || c = '-'

/-- Python's `s.split(sep)` for a one-character separator, on character
lists: split at every occurrence of `sep` (so `""` splits to `[""]` and a
leading/trailing separator yields an empty part). -/
def splitChar (sep : Char) : List Char → List (List Char)
  | [] => [[]]
  | c :: rest =>
    let r := splitChar sep rest
    if c = sep then [] :: r
    else
      match r with
      | [] => [[c]]
      | t :: ts => (c :: t) :: ts

/-- The language of the DNS-label pattern
`^[a-z0-9]([a-z-0-9-]{0,61}[a-z0-9])?$` with `re.IGNORECASE`, on an exact
character list: one alphanumeric character, or 2–63 characters beginning
and ending alphanumeric with `[a-z0-9-]` in between. -/
def labelCore : List Char → Bool
  | [] => false
  | [c] => isAlnumA c
  | c :: rest =>
    isAlnumA c && rest.length ≤ 62 && rest.dropLast.all isLabelMid &&
      (match rest.getLast? with
       | some d => isAlnumA d
       | none => false)

/-- `fqdn.match(label)` for the compiled pattern above: Python's `$` also
matches just before one trailing newline, so a label ending in `'\n'`
matches whenever the label without it does. -/
def matchLabel (l : List Char) : Bool :=
  labelCore l || (l.getLast? = some '\n' && labelCore l.dropLast)

/-- The inner `is_fqdn(hostname)` of `validation.is_address_valid`: length
check (before the trailing dot is stripped), strip one trailing dot, split
into DNS labels, and require every label to match the pattern. -/
def is_fqdn (hostname : String) : Bool :=
  if ¬ (1 < hostname.length ∧ hostname.length < 253) then false
  else
    let h := if hostname.data.getLast? = some '.' then hostname.data.dropLast
             else hostname.data
    (splitChar '.' h).all matchLabel

/-- `validation.is_address_valid(address)`, parameterised by the external
IP-address recogniser (`is_ip_address_valid` delegates to the standard
`ipaddress` library, which is outside the shown sources; the spec treats it
as an external boundary, so it is an abstract oracle here). -/
def is_address_valid (ipValid : String → Bool) (address : String) : Bool :=
  if ¬ ipValid address then is_fqdn address else true

/-- `validation.is_valid_contact(contact_data)`, parameterised by the IP
oracle and by the configured delimiter.  Modelled from the spec: the
delimiter `Config.contact_delimiter` (the `config` module is not among the
shown sources) is taken to be a single character, as in the spec's example
delimiter `":"`. -/
def is_valid_contact (delim : Char) (ipValid : String → Bool)
    (contact_data : PyVal) : Except PyErr Bool :=
  match validate_fields contact_data simple_contact_structure with
  | .error e => .error e
  | .ok false => .ok false
  | .ok true =>
    match dictGet contact_data "address" with
    | .error e => .error e
    | .ok av =>
      match av with
      | .str s =>
        -- `address = contact_data["address"].split(delim)`
        match (splitChar delim s.data).map String.mk with
        | [ip_address, port] =>
          if ¬ is_address_valid ipValid ip_address then .ok false
          else if ¬ is_network_port_valid port then .ok false
          else .ok true
        | _ => .ok false  -- `len(address) != 2`
      | _ => .error .attributeError

/-- The FQDN acceptance condition exactly as the claim states it (spec side
of the refinement): every dot-separated label of the hostname (after
stripping one optional trailing dot) matches the pattern, and the overall
length, measured AFTER stripping the trailing dot, is strictly between 1
and 253. -/
def fqdnClaim (address : String) : Bool :=
  let h := if address.data.getLast? = some '.' then address.data.dropLast
           else address.data
  if ¬ (1 < h.length ∧ h.length < 253) then false
  else (splitChar '.' h).all matchLabel

/-- The claim as amended: identical to `fqdnClaim` except that the overall
length is measured BEFORE stripping the optional trailing dot, as the code
does. -/
def fqdnAmended (address : String) : Bool :=
  if ¬ (1 < address.length ∧ address.length < 253) then false
  else
    let h := if address.data.getLast? = some '.' then address.data.dropLast
             else address.data
    (splitChar '.' h).all matchLabel

/-!  The synchronous job system of `jobs.py`.  -/

/-- A `Job`: its action is identified by `id` (the callback itself lives
behind the `raises` oracle of the scheduler functions). -/
structure Job where
  id : Nat
  default_schedule : Int
  remaining_time : Int
deriving DecidableEq

/-- `job -= to_wait` (the `__isub__` of `Job`, which mutates
`remaining_time`). -/
def decJob (w : Int) (j : Job) : Job :=
  { j with remaining_time := j.remaining_time - w }

/-- Insert a job into a list sorted by `remaining_time`, before the first
element that is not strictly smaller (so earlier-listed jobs stay before
later ones with an equal key). -/
def insertJob (j : Job) : List Job → List Job
  | [] => [j]
  | x :: xs =>
    if x.remaining_time < j.remaining_time then x :: insertJob j xs
    else j :: x :: xs

/-- `self.jobs.sort(key=lambda x: x.remaining_time)`: a stable ascending
sort by `remaining_time` (Python's sort is stable; any stable sort yields
the same list). -/
def sortJobs : List Job → List Job
  | [] => []
  | x :: xs => insertJob x (sortJobs xs)

/-- Exceptions that can escape one iteration of `Jobs.run`. -/
inductive TickErr where
  | indexError
  | actionError (id : Nat)
deriving DecidableEq

/-- The body of one non-cancelled iteration of `Jobs.run`, with
`T = Config.mp_timeout` and a `raises` oracle telling which job actions
raise when run.  Returns the updated job list and the ids of the actions
that ran, or the escaping exception. -/
def tick (raises : Nat → Bool) (T : Int) (jobs : List Job) :
    Except TickErr (List Job × List Nat) :=
  match sortJobs jobs with
  | [] => .error .indexError  -- `self.jobs[0]` on an empty list
  | next :: rest =>
    let to_wait := if T < next.remaining_time then T else next.remaining_time
    let next' := decJob to_wait next
    let rest' := rest.map (decJob to_wait)
    if next'.remaining_time ≤ 0 then
      if raises next.id then .error (.actionError next.id)
      else .ok ({ next' with remaining_time := next'.default_schedule } :: rest',
                [next.id])
    else .ok (next' :: rest', [])

/-- `Jobs.run`, driven by the finite trace `stops` of results of
`self.stop_event.wait(stop_delay)`.  Returns the ids of all actions that
ran and either the final job list (loop left by the stop event or by the
end of the trace) or the exception that escaped the loop. -/
def runJobs (raises : Nat → Bool) (T : Int) :
    List Bool → List Job → List Nat × Except TickErr (List Job)
  | [], jobs => ([], .ok jobs)
  | stop :: stops, jobs =>
    if stop then ([], .ok jobs)
    else
      match tick raises T jobs with
      | .error e => ([], .error e)
      | .ok (jobs', ran) =>
        let r := runJobs raises T stops jobs'
        (ran ++ r.1, r.2)

/-!  Helper lemmas about the stable sort of the scheduler.  -/

theorem insertJob_perm (j : Job) (l : List Job) :
    (insertJob j l).Perm (j :: l) := by
  induction l with
  | nil => simp [insertJob]
  | cons x xs ih =>
    by_cases hc : x.remaining_time < j.remaining_time
    · simp only [insertJob, if_pos hc]
      exact (ih.cons x).trans (List.Perm.swap j x xs)
    · simp [insertJob, hc]

theorem sortJobs_perm (l : List Job) : (sortJobs l).Perm l := by
  induction l with
  | nil => simp [sortJobs]
  | cons x xs ih =>
    exact (insertJob_perm x (sortJobs xs)).trans (ih.cons x)

theorem insertJob_pairwise (j : Job) (l : List Job)
    (h : l.Pairwise (fun a b => a.remaining_time ≤ b.remaining_time)) :
    (insertJob j l).Pairwise (fun a b => a.remaining_time ≤ b.remaining_time) := by
  induction l with
  | nil => simp [insertJob]
  | cons x xs ih =>
    rcases List.pairwise_cons.mp h with ⟨hx, hxs⟩
    by_cases hc : x.remaining_time < j.remaining_time
    · simp only [insertJob, if_pos hc]
      refine List.pairwise_cons.mpr ⟨?_, ih hxs⟩
      intro b hb
      rcases List.mem_cons.mp ((insertJob_perm j xs).mem_iff.mp hb) with hbj | hbx
      · subst hbj; omega
      · exact hx b hbx
    · simp only [insertJob, if_neg hc]
      refine List.pairwise_cons.mpr ⟨?_, List.pairwise_cons.mpr ⟨hx, hxs⟩⟩
      intro b hb
      rcases List.mem_cons.mp hb with hbx | hbxs
      · subst hbx; omega
      · have := hx b hbxs; omega

theorem sortJobs_pairwise (l : List Job) :
    (sortJobs l).Pairwise (fun a b => a.remaining_time ≤ b.remaining_time) := by
  induction l with
  | nil => simp [sortJobs]
  | cons x xs ih => exact insertJob_pairwise x (sortJobs xs) ih

theorem sortJobs_head_min (l : List Job) (next : Job) (rest : List Job)
    (h : sortJobs l = next :: rest) :
    ∀ j ∈ l, next.remaining_time ≤ j.remaining_time := by
  intro j hj
  have hmem : j ∈ sortJobs l := (sortJobs_perm l).mem_iff.mpr hj
  rw [h] at hmem
  rcases List.mem_cons.mp hmem with hje | hjr
  · subst hje; omega
  · have hp := sortJobs_pairwise l
    rw [h] at hp
    exact (List.pairwise_cons.mp hp).1 j hjr

/-- The source's `stop_delay if stop_delay < r else r` is `min`. -/
theorem ite_lt_eq_min (T r : Int) : (if T < r then T else r) = min T r := by
  rw [Int.min_def]; split <;> split <;> omega

/-!  Claims about `validate_fields`.  -/

/-- C1: for every well-formed schema and matching data `validate_fields`
should return true.  It does not: on the nested schema
`{"meta": {"digest": str}}` with exactly matching data
`{"meta": {"digest": "abc"}}` (which satisfies the claim's matching
relation, `matchesSchema`), the code returns `False`, because the recursive
call validates the nested schema against itself instead of against the
nested data field. -/
theorem validate_fields_rejects_matching_nested_data :
    matchesSchema (.dict [("meta", .dict [("digest", .str "abc")])])
        (.dict [("meta", .dict [("digest", .type .str)])]) = true ∧
    validate_fields (.dict [("meta", .dict [("digest", .str "abc")])])
        (.dict [("meta", .dict [("digest", .type .str)])]) = .ok false := by
  constructor
  · simp +decide [matchesSchema, matchesFields, pyType, is_int, List.lookup]
  · simp +decide [validate_fields, checkFields, pyType, List.lookup]

/-- C2: `validate_fields` should never raise for two mapping inputs.  It
does: on data `{"b": 0}` against schema `{"a": {}}` (equal field counts,
mismatched field sets, nested schema value) the access
`dictionary[field_name]` in the nested-schema branch is outside any
try/except and raises `KeyError`. -/
theorem validate_fields_raises_keyerror :
    validate_fields (.dict [("b", .int 0)]) (.dict [("a", .dict [])])
      = .error .keyError := by
  simp +decide [validate_fields, checkFields, pyType, List.lookup]

/-- C3: integer-typed schema fields should accept digit-only strings via
`is_int`.  They do not: `"123"` is `is_int`-accepted and matches the
claim's relation for the schema `{"n": int}`, yet `validate_fields`
returns `False`, because the guard `type(field_value) == int` compares the
metaclass `type` with `int` and is always false, leaving the `is_int`
branch dead. -/
theorem validate_fields_rejects_digit_string_for_int_field :
    is_int (.str "123") = true ∧
    matchesSchema (.dict [("n", .str "123")]) (.dict [("n", .type .int)]) = true ∧
    validate_fields (.dict [("n", .str "123")]) (.dict [("n", .type .int)])
      = .ok false := by
  refine ⟨by decide, ?_, ?_⟩
  · simp +decide [matchesSchema, matchesFields, pyType, is_int, List.lookup]
  · simp +decide [validate_fields, checkFields, pyType, is_int, List.lookup]

/-!  Claims about the trust verifiers.  -/

/-- C4: `is_valid_node` performs its checks in the order structural
validation → public-key construction → key-size → hash → signature,
short-circuiting to false on the first failure; in particular, whenever the
reconstructed key's bit length differs from the configured RSA key length
the result is false regardless of the hash and signature oracles. -/
theorem is_valid_node_check_order {K H S : Type} (C : Crypto K H S)
    (node : PyVal) :
    (validate_fields node node_structure = .ok false →
       is_valid_node C node = .ok false) ∧
    (∀ nv ev, validate_fields node node_structure = .ok true →
       dictGet node "rsa_n" = .ok nv → dictGet node "rsa_e" = .ok ev →
       C.construct_rsa_object nv ev = none →
       is_valid_node C node = .ok false) ∧
    (∀ nv ev k, validate_fields node node_structure = .ok true →
       dictGet node "rsa_n" = .ok nv → dictGet node "rsa_e" = .ok ev →
       C.construct_rsa_object nv ev = some k →
       C.size_in_bits k ≠ C.rsa_keys_length →
       is_valid_node C node = .ok false) ∧
    (∀ nv ev k hv, validate_fields node node_structure = .ok true →
       dictGet node "rsa_n" = .ok nv → dictGet node "rsa_e" = .ok ev →
       C.construct_rsa_object nv ev = some k →
       C.size_in_bits k = C.rsa_keys_length →
       dictGet node "hash" = .ok hv →
       pyEqStr (C.hexdigest (C.get_public_key_hash k)) hv = false →
       is_valid_node C node = .ok false) ∧
    (∀ nv ev k hv sv, validate_fields node node_structure = .ok true →
       dictGet node "rsa_n" = .ok nv → dictGet node "rsa_e" = .ok ev →
       C.construct_rsa_object nv ev = some k →
       C.size_in_bits k = C.rsa_keys_length →
       dictGet node "hash" = .ok hv →
       pyEqStr (C.hexdigest (C.get_public_key_hash k)) hv = true →
       dictGet node "sig" = .ok sv →
       is_valid_node C node =
         .ok (C.is_signature_valid k (C.get_public_key_hash k)
               (C.deserialize_string sv))) := by
  refine ⟨?_, ?_, ?_, ?_, ?_⟩
  · intro h1
    simp [is_valid_node, h1]
  · intro nv ev h1 h2 h3 h4
    simp [is_valid_node, h1, h2, h3, h4]
  · intro nv ev k h1 h2 h3 h4 h5
    simp [is_valid_node, h1, h2, h3, h4, h5]
  · intro nv ev k hv h1 h2 h3 h4 h5 h6 h7
    simp [is_valid_node, h1, h2, h3, h4, h5, h6, h7]
  · intro nv ev k hv sv h1 h2 h3 h4 h5 h6 h7 h8
    simp only [is_valid_node, h1, h2, h3, h4, h5, h6, h7, h8]
    cases hs : C.is_signature_valid k (C.get_public_key_hash k)
        (C.deserialize_string sv) <;> simp [hs]

/-- A concrete instance of the cryptography capability, for the witnesses:
keys, hashes and signatures are natural numbers. -/
def cryptoW : Crypto Nat Nat Nat where
  construct_rsa_object := fun nv ev =>
    match nv, ev with
    | .int a, .int b => some (a.toNat + b.toNat)
    | _, _ => none
  size_in_bits := fun k => k
  get_public_key_hash := fun k => k
  hash_iterable := fun _ => 0
  hexdigest := fun h => if h = 0 then "0" else "1"
  deserialize_string := fun _ => 0
  is_signature_valid := fun _ _ _ => true
  rsa_keys_length := 4096

/-- A structurally valid node whose reconstructed key has the wrong size
under `cryptoW`. -/
def nodeW : PyVal :=
  .dict [("rsa_n", .int 7), ("rsa_e", .int 3),
         ("hash", .str "h"), ("sig", .str "s")]

/-- Witness for C4: the size-mismatch conjunct at a concrete node and a
concrete crypto instance whose hash and signature checks would succeed. -/
theorem is_valid_node_check_order_witness :
    validate_fields nodeW node_structure = .ok true ∧
    cryptoW.construct_rsa_object (.int 7) (.int 3) = some 10 ∧
    cryptoW.size_in_bits 10 ≠ cryptoW.rsa_keys_length ∧
    is_valid_node cryptoW nodeW = .ok false := by
  have hv : validate_fields nodeW node_structure = .ok true := by
    simp +decide [validate_fields, checkFields, pyType, List.lookup,
      nodeW, node_structure]
  refine ⟨hv, rfl, by decide, ?_⟩
  exact (is_valid_node_check_order cryptoW nodeW).2.2.1 (.int 7) (.int 3) 10
    hv rfl rfl rfl (by decide)

/-- C5: `verify_received_aes_key` returns true exactly when the structural
check passes, the envelope's `hash` field equals (by exact string equality)
the hex digest of the recomputed hash of `value`, and `sig` deserializes to
a signature valid over that recomputed hash under the author's key; if
either of the two cryptographic conditions fails, the result is false. -/
theorem verify_received_aes_key_iff {K H S : Type} (C : Crypto K H S)
    (pk : K) (key value hv sv : PyVal) :
    dictGet key "value" = .ok value →
    dictGet key "hash" = .ok hv →
    dictGet key "sig" = .ok sv →
    (verify_received_aes_key C pk key = .ok true ↔
      (validate_fields key aes_key_structure = .ok true ∧
       pyEqStr (C.hexdigest (C.hash_iterable value)) hv = true ∧
       C.is_signature_valid pk (C.hash_iterable value)
         (C.deserialize_string sv) = true)) := by
  intro h1 h2 h3
  cases hval : validate_fields key aes_key_structure with
  | error e => simp [verify_received_aes_key, hval]
  | ok b =>
    cases b with
    | false => simp [verify_received_aes_key, hval]
    | true =>
      simp only [verify_received_aes_key, hval, h1, h2, h3]
      cases hh : pyEqStr (C.hexdigest (C.hash_iterable value)) hv with
      | false => simp [hh]
      | true =>
        cases hs : C.is_signature_valid pk (C.hash_iterable value)
            (C.deserialize_string sv) <;> simp [hh, hs]

/-- A structurally valid AES key envelope that verifies under `cryptoW`:
its `hash` field is the `cryptoW` digest `"0"` of its `value`. -/
def aesKeyW : PyVal :=
  .dict [("value", .str "v"), ("hash", .str "0"), ("sig", .str "s")]

/-- Witness for C5: the equivalence instantiated at `aesKeyW`, giving a
successful verification. -/
theorem verify_received_aes_key_iff_witness :
    dictGet aesKeyW "hash" = .ok (.str "0") ∧
    verify_received_aes_key cryptoW 1 aesKeyW = .ok true := by
  have hval : validate_fields aesKeyW aes_key_structure = .ok true := by
    simp +decide [validate_fields, checkFields, pyType, List.lookup,
      aesKeyW, aes_key_structure]
  refine ⟨rfl, ?_⟩
  exact (verify_received_aes_key_iff cryptoW 1 aesKeyW (.str "v") (.str "0")
    (.str "s") rfl rfl rfl).mpr ⟨hval, by decide, rfl⟩

/-!  Claims about the job scheduler.  -/

/-- Two jobs with intervals 5 and 10, as in the spec's scheduling example. -/
def jobsC6 : List Job := [⟨0, 5, 5⟩, ⟨1, 10, 10⟩]

/-- C6 counterexample: a failure of one job's action is NOT contained to
that job.  With intervals 5 and 10 and poll interval 3, job 0's action
raising at its first firing makes the exception escape `Jobs.run` (the
result is `.error`, the loop is halted, nothing more runs), while the same
run without the failure executes job 1's action later. -/
theorem runJobs_raise_not_contained :
    runJobs (fun i => i == 0) 3 (List.replicate 10 false) jobsC6
        = ([], .error (.actionError 0)) ∧
    1 ∈ (runJobs (fun _ => false) 3 (List.replicate 10 false) jobsC6).1 :=
  ⟨rfl, by decide⟩

/-- C6 as amended: if the job selected on a non-cancelled iteration fires
and its action raises, the exception propagates out of `Jobs.run`
immediately: whatever the remaining stop-event trace, the loop halts with
that exception, no action result is recorded, and no other job runs. -/
theorem runJobs_raise_halts_loop (raises : Nat → Bool) (T : Int)
    (stops : List Bool) (jobs : List Job) (next : Job) (rest : List Job) :
    sortJobs jobs = next :: rest →
    raises next.id = true →
    next.remaining_time - min T next.remaining_time ≤ 0 →
    runJobs raises T (false :: stops) jobs
      = ([], .error (.actionError next.id)) := by
  intro hs hr hfire
  have hw : (if T < next.remaining_time then T else next.remaining_time)
      = min T next.remaining_time := ite_lt_eq_min _ _
  have htick : tick raises T jobs = .error (.actionError next.id) := by
    simp only [tick, hs, hw, decJob]
    simp [hfire, hr]
  simp [runJobs, htick]

/-- Witness for the amended C6: a single job whose action raises at its
firing halts a three-iteration run at the first iteration. -/
theorem runJobs_raise_halts_loop_witness :
    sortJobs [(⟨0, 2, 2⟩ : Job)] = [⟨0, 2, 2⟩] ∧
    runJobs (fun _ => true) 5 [false, false, false] [(⟨0, 2, 2⟩ : Job)]
      = ([], .error (.actionError 0)) := by
  refine ⟨rfl, ?_⟩
  exact runJobs_raise_halts_loop (fun _ => true) 5 [false, false]
    [⟨0, 2, 2⟩] ⟨0, 2, 2⟩ [] rfl rfl (by decide)

/-- C7: on a non-cancelled scheduler iteration, the selected job is one
with the smallest `remaining_time` among all jobs; the elapsed wait is
`min T remaining`; every job is decremented by that wait; and the selected
job's action runs and its time is reset to `default_schedule` exactly when
its decremented remaining time is ≤ 0, all other jobs keeping their decayed
times.  The last conjunct ties `tick` to the loop: a non-cancelled
iteration of `Jobs.run` performs `tick` and continues with its result. -/
theorem tick_semantics (raises : Nat → Bool) (T : Int) (jobs : List Job)
    (next : Job) (rest : List Job) :
    sortJobs jobs = next :: rest →
    raises next.id = false →
    ((next :: rest).Perm jobs ∧
     (∀ j ∈ jobs, next.remaining_time ≤ j.remaining_time) ∧
     (next.remaining_time - min T next.remaining_time ≤ 0 →
        tick raises T jobs =
          .ok ({ next with remaining_time := next.default_schedule } ::
                 rest.map (decJob (min T next.remaining_time)),
               [next.id])) ∧
     (0 < next.remaining_time - min T next.remaining_time →
        tick raises T jobs =
          .ok ((next :: rest).map (decJob (min T next.remaining_time)), [])) ∧
     (∀ stops jobs2 ran, tick raises T jobs = .ok (jobs2, ran) →
        runJobs raises T (false :: stops) jobs =
          (ran ++ (runJobs raises T stops jobs2).1,
           (runJobs raises T stops jobs2).2))) := by
  intro hs hr
  have hw : (if T < next.remaining_time then T else next.remaining_time)
      = min T next.remaining_time := ite_lt_eq_min _ _
  refine ⟨hs ▸ sortJobs_perm jobs, sortJobs_head_min jobs next rest hs,
    ?_, ?_, ?_⟩
  · intro hfire
    simp only [tick, hs, hw, decJob]
    simp [hfire, hr]
  · intro hlive
    have hfire : ¬ (next.remaining_time - min T next.remaining_time ≤ 0) := by
      omega
    simp only [tick, hs, hw, decJob]
    simp [hfire, decJob]
  · intro stops jobs2 ran htick
    simp [runJobs, htick]

/-- Witness for C7: two fresh jobs with intervals 5 and 10 under poll
interval 3; no job fires on the first iteration and both decay by 3. -/
theorem tick_semantics_witness :
    sortJobs jobsC6 = [⟨0, 5, 5⟩, ⟨1, 10, 10⟩] ∧
    tick (fun _ => false) 3 jobsC6 = .ok ([⟨0, 5, 2⟩, ⟨1, 10, 7⟩], []) := by
  refine ⟨rfl, ?_⟩
  exact (tick_semantics (fun _ => false) 3 jobsC6 ⟨0, 5, 5⟩ [⟨1, 10, 10⟩]
    rfl rfl).2.2.2.1 (by decide)

/-!  Claims about contact, address and port validation.  -/

/-- `is_network_port_valid` in terms of the parser: true exactly when the
string parses and the value is strictly between 0 and 65536. -/
theorem is_network_port_valid_iff (p : String) :
    is_network_port_valid p = true ↔
      ∃ v, pyIntParse p = some v ∧ 0 < v ∧ v < 65536 := by
  unfold is_network_port_valid
  cases h : pyIntParse p with
  | none => simp
  | some v => simp [h]

/-- C8: `is_valid_contact` returns true iff the structural check passes,
the `address` field splits on the configured delimiter into exactly two
parts, the first part is accepted by `is_address_valid` and the second
parses as an integer strictly between 0 and 65536; any split with a number
of parts other than two makes it false regardless of the parts. -/
theorem is_valid_contact_iff :
    (∀ (delim : Char) (ipValid : String → Bool) (contact : PyVal)
        (s : String) (ipp pp : String),
       dictGet contact "address" = .ok (.str s) →
       (splitChar delim s.data).map String.mk = [ipp, pp] →
       (is_valid_contact delim ipValid contact = .ok true ↔
         (validate_fields contact simple_contact_structure = .ok true ∧
          is_address_valid ipValid ipp = true ∧
          ∃ v, pyIntParse pp = some v ∧ 0 < v ∧ v < 65536))) ∧
    (∀ (delim : Char) (ipValid : String → Bool) (contact : PyVal)
        (s : String),
       dictGet contact "address" = .ok (.str s) →
       ((splitChar delim s.data).map String.mk).length ≠ 2 →
       validate_fields contact simple_contact_structure = .ok true →
       is_valid_contact delim ipValid contact = .ok false) := by
  constructor
  · intro delim ipValid contact s ipp pp h1 hsp
    cases hval : validate_fields contact simple_contact_structure with
    | error e => simp [is_valid_contact, hval]
    | ok b =>
      cases b with
      | false => simp [is_valid_contact, hval]
      | true =>
        simp only [is_valid_contact, hval, h1, hsp]
        by_cases ha : is_address_valid ipValid ipp <;>
          by_cases hp : is_network_port_valid pp <;>
            simp [ha, hp, ← is_network_port_valid_iff]
  · intro delim ipValid contact s h1 hlen hval
    simp only [is_valid_contact, hval, h1]
    cases hsp : (splitChar delim s.data).map String.mk with
    | nil => simp
    | cons a t =>
      cases t with
      | nil => simp
      | cons b t2 =>
        cases t2 with
        | nil => exact absurd (by rw [hsp]; rfl) hlen
        | cons c t3 => simp

/-- The contact of the spec's example. -/
def contactW : PyVal := .dict [("address", .str "198.51.100.7:9001")]

/-- Witness for C8: `"198.51.100.7:9001"` with delimiter `":"` and an IP
oracle accepting the host validates. -/
theorem is_valid_contact_iff_witness :
    (splitChar ':' "198.51.100.7:9001".data).map String.mk
      = ["198.51.100.7", "9001"] ∧
    is_valid_contact ':' (fun h => h == "198.51.100.7") contactW
      = .ok true := by
  have hval : validate_fields contactW simple_contact_structure = .ok true := by
    simp +decide [validate_fields, checkFields, pyType, List.lookup,
      contactW, simple_contact_structure]
  refine ⟨by decide, ?_⟩
  exact (is_valid_contact_iff.1 ':' (fun h => h == "198.51.100.7") contactW
    "198.51.100.7:9001" "198.51.100.7" "9001" rfl (by decide)).mpr
    ⟨hval, by decide, ⟨9001, rfl, by decide, by decide⟩⟩

/-- C9 counterexample: the code measures the host length BEFORE stripping
the optional trailing dot, not after.  The address `"a."` (not an IP
address for any oracle answering false) is accepted by the code — its
pre-strip length 2 passes `1 < len < 253` and its single label `"a"`
matches the pattern — but the claim's condition, with length measured
after stripping (here 1), rejects it. -/
theorem is_address_valid_trailing_dot_counterexample :
    is_address_valid (fun _ => false) "a." = true ∧
    fqdnClaim "a." = false := by
  constructor <;> decide

/-- C9 as amended: when the host is not a valid IP address,
`is_address_valid` accepts it iff every dot-separated label (after
stripping one optional trailing dot) matches the DNS-label pattern
case-insensitively and the overall length measured BEFORE stripping the
trailing dot lies strictly between 1 and 253. -/
theorem is_address_valid_fqdn_amended (ipValid : String → Bool)
    (address : String) :
    ipValid address = false →
    is_address_valid ipValid address = fqdnAmended address := by
  intro h
  simp only [is_address_valid, h]
  simp only [Bool.false_eq_true, not_false_eq_true, if_true]
  unfold is_fqdn fqdnAmended
  rfl

/-- Witness for the amended C9: the spec's example FQDN validates. -/
theorem is_address_valid_fqdn_amended_witness :
    is_address_valid (fun _ => false) "node1.example.com"
      = fqdnAmended "node1.example.com" ∧
    fqdnAmended "node1.example.com" = true := by
  refine ⟨?_, by decide⟩
  exact is_address_valid_fqdn_amended (fun _ => false) "node1.example.com" rfl

/-- C10: `is_network_port_valid` accepts every string the (modelled)
Python integer parser accepts — including surrounding whitespace, a
leading plus sign, or underscore digit grouping — exactly when the parsed
value lies strictly between 0 and 65536. -/
theorem is_network_port_valid_pyint (s : String) (v : Int) :
    pyIntParse s = some v →
    (is_network_port_valid s = true ↔ (0 < v ∧ v < 65536)) := by
  intro h
  simp [is_network_port_valid, h]

/-- Witness for C10: `" 9001 "`, `"+9001"` and `"9_001"` are not plain
digit strings yet all count as valid ports. -/
theorem is_network_port_valid_pyint_witness :
    pyIntParse " 9001 " = some 9001 ∧ pyIntParse "+9001" = some 9001 ∧
    pyIntParse "9_001" = some 9001 ∧
    " 9001 ".data.all Char.isDigit = false ∧
    "+9001".data.all Char.isDigit = false ∧
    "9_001".data.all Char.isDigit = false ∧
    is_network_port_valid " 9001 " = true ∧
    is_network_port_valid "+9001" = true ∧
    is_network_port_valid "9_001" = true := by
  refine ⟨rfl, rfl, rfl, by decide, by decide, by decide, ?_, ?_, ?_⟩
  · exact (is_network_port_valid_pyint " 9001 " 9001 rfl).mpr (by decide)
  · exact (is_network_port_valid_pyint "+9001" 9001 rfl).mpr (by decide)
  · exact (is_network_port_valid_pyint "9_001" 9001 rfl).mpr (by decide)
